import Mathlib

/-!
Verification of `convoy/fleet.py` (batch-shipyard): a shallow embedding of the
pool construction/validation engine and of the multi-instance coordination
protocol, with theorems settling the specification's claims about them.

Conventions: Python machine-independent ints are `Nat`/`Int`; fallible code
returns `Except`; event-ordered side effects (service calls, log lines,
raises) are reified as explicit event lists in the order the source emits
them.
-/

/-! ## SubnetPlanner: `_pool_virtual_network_subnet_address_space_check`
    (fleet.py lines 724-803) -/

/-- Embeds `allowable_addresses = (1 << (32 - mask)) - 5` (fleet.py line 779):
the address count a subnet of the given CIDR mask allows, five addresses
being reserved by cloud-networking convention.  The shift is on a Python
arbitrary-precision int, so the value is an `Int` (negative for masks over
29). -/
def allowable_addresses (mask : Nat) : Int :=
  ((1 <<< (32 - mask) : Nat) : Int) - 5

/-- Embeds the Python expression `int(allowable_addresses * 0.9)`
(fleet.py line 791).  Python truncates the IEEE-754 double product toward
zero; for every value `allowable_addresses` can take in the source
(`2^k - 5` for `k` in `[0, 32]`, checked exhaustively against CPython), the
result coincides with the truncating integer division `(9 * a) tdiv 10`,
which is what `Int.tdiv` computes. -/
def int_of_times_09 (a : Int) : Int :=
  Int.tdiv (9 * a) 10

/-- Which of the two `raise RuntimeError` statements of the address-space
check fired. -/
inductive SubnetCheckErr where
  /-- `subnet ... allows ... addresses but desired pool vm_count is ...`
      (fleet.py line 787). -/
  | insufficientSpace
  /-- `Pool deployment rejected by user` (fleet.py line 801). -/
  | rejectedByUser
  deriving DecidableEq, Repr

/-- Embeds the address-space validation of
`_pool_virtual_network_subnet_address_space_check` (fleet.py lines 772-802):
given the parsed subnet mask, the pool's dedicated and low-priority target
counts, and the outcome of the `util.confirm_action` prompt, either accept
the subnet or raise.  The `0.9` tolerance branch asks for user confirmation
and raises when it is not given. -/
def pool_virtual_network_subnet_address_space_check
    (mask dedicated low_priority : Nat) (user_confirms : Bool) :
    Except SubnetCheckErr Unit :=
  let allowable := allowable_addresses mask
  let pool_total_vm_count : Int := (dedicated : Int) + (low_priority : Int)
  if allowable < pool_total_vm_count then
    .error .insufficientSpace
  else if int_of_times_09 allowable ≤ pool_total_vm_count then
    if user_confirms then .ok () else .error .rejectedByUser
  else
    .ok ()

/-! ## PoolRequestBuilder: autoscale handling in `_construct_pool_object`
    (fleet.py lines 860-872 and 1121-1155) -/

/-- The `vm_count` named tuple of the pool settings. -/
structure PoolVmCount where
  dedicated : Nat
  low_priority : Nat
  deriving DecidableEq, Repr

/-- The autoscale section of the pool settings.  The evaluation interval is
a timedelta in the source; it is opaque here and modelled as a `Nat`. -/
structure PoolAutoscaleSettings where
  enabled : Bool
  evaluation_interval : Nat
  deriving DecidableEq, Repr

/-- The slice of `settings.pool_settings(config)` that the autoscale
handling of `_construct_pool_object` reads. -/
structure PoolSettings where
  id : String
  vm_count : PoolVmCount
  resize_timeout : Option Nat
  max_tasks_per_node : Nat
  inter_node_communication_enabled : Bool
  autoscale : PoolAutoscaleSettings
  deriving DecidableEq, Repr

/-- Modelled from the spec: `settings.is_pool_autoscale_enabled` lives in
`convoy/settings.py`, which is not among the given sources; per the spec's
FleetSpec data model it reports whether the autoscale policy is enabled. -/
def is_pool_autoscale_enabled (ps : PoolSettings) : Bool :=
  ps.autoscale.enabled

/-- The `asenable` / `asformula` / `asei` triple computed by
`_construct_pool_object`, together with whether the
`ignoring resize timeout for autoscale-enabled pool` warning was logged. -/
structure AutoscaleSettings where
  asenable : Bool
  asformula : Option String
  asei : Option Nat
  warns_resize_timeout : Bool
  deriving DecidableEq, Repr

/-- Embeds fleet.py lines 860-871: when autoscale is enabled the formula is
obtained from `autoscale.get_formula` (a black box to this module,
abstracted as `get_formula`) and the evaluation interval is taken from the
settings, warning if a resize timeout was also configured; otherwise all
three are absent. -/
def pool_autoscale_settings (get_formula : PoolSettings → String)
    (ps : PoolSettings) : AutoscaleSettings :=
  if is_pool_autoscale_enabled ps then
    { asenable := true
      asformula := some (get_formula ps)
      asei := some ps.autoscale.evaluation_interval
      warns_resize_timeout := ps.resize_timeout.isSome }
  else
    { asenable := false
      asformula := none
      asei := none
      warns_resize_timeout := false }

/-- The slice of `batchmodels.PoolAddParameter` populated by fleet.py lines
1121-1155 that the autoscale claims are about. -/
structure PoolAddParameter where
  id : String
  target_dedicated_nodes : Option Nat
  target_low_priority_nodes : Option Nat
  resize_timeout : Option Nat
  max_tasks_per_node : Nat
  enable_inter_node_communication : Bool
  enable_auto_scale : Bool
  auto_scale_formula : Option String
  auto_scale_evaluation_interval : Option Nat
  deriving DecidableEq, Repr

/-- Embeds the `batchmodels.PoolAddParameter(...)` construction of
fleet.py lines 1121-1155 (restricted to the fields the claims mention):
target counts and resize timeout are passed only when `asenable` is false,
the autoscale formula and interval are whatever `pool_autoscale_settings`
produced. -/
def construct_pool_parameter (get_formula : PoolSettings → String)
    (ps : PoolSettings) : PoolAddParameter :=
  let a := pool_autoscale_settings get_formula ps
  { id := ps.id
    target_dedicated_nodes :=
      if !a.asenable then some ps.vm_count.dedicated else none
    target_low_priority_nodes :=
      if !a.asenable then some ps.vm_count.low_priority else none
    resize_timeout := if !a.asenable then ps.resize_timeout else none
    max_tasks_per_node := ps.max_tasks_per_node
    enable_inter_node_communication := ps.inter_node_communication_enabled
    enable_auto_scale := a.asenable
    auto_scale_formula := a.asformula
    auto_scale_evaluation_interval := a.asei }

/-! ## ConfigValidator: shared-data-volume checks in
    `_adjust_settings_for_pool_creation` (fleet.py lines 1986-2096) -/

/-- The shape of one declared shared-data-volume entry, as discriminated by
the `settings.is_shared_data_volume_*` tests of fleet.py lines 2024-2094.
For a glusterfs-on-compute entry the volume type is `none` when
`settings.gluster_volume_type` raises `KeyError` (the source swallows it). -/
inductive SdvSpec where
  | glusterOnCompute (volume_type : Option String)
  | storageCluster
  | azureBlob
  | azureFile
  deriving DecidableEq, Repr

/-- Whether an entry is a glusterfs-on-compute volume. -/
def SdvSpec.isGlusterOnCompute : SdvSpec → Bool
  | .glusterOnCompute _ => true
  | _ => false

/-- The configuration facts `_adjust_settings_for_pool_creation` consults
while walking the shared-data-volume entries. -/
structure PoolCreateCfg where
  is_windows : Bool
  native : Bool
  autoscale_enabled : Bool
  inter_node_communication_enabled : Bool
  dedicated : Nat
  low_priority : Nat
  max_tasks_per_node : Nat
  publisher : String
  offer : String
  sku : String
  deriving DecidableEq, Repr

/-- Which `raise ValueError` of the shared-data-volume walk fired. -/
inductive SdvErr where
  | glusterOnWindows
  | glusterOnAutoscale
  | glusterNoInternode
  | glusterLowPriority
  | glusterDedicatedCount
  | glusterMaxTasks
  | glusterVolumeType
  | storageClusterOnWindows
  | blobOnWindows
  | blobOnNative
  | blobUnsupportedHostOs
  | multipleGluster
  deriving DecidableEq, Repr

/-- Embeds one iteration of the `for sdvkey in sdv` loop of fleet.py lines
2024-2086: either raises, or yields the updated `num_gluster` counter. -/
def sdv_entry_check (cfg : PoolCreateCfg) (s : SdvSpec) (num_gluster : Nat) :
    Except SdvErr Nat :=
  match s with
  | .glusterOnCompute volume_type =>
    if cfg.is_windows then .error .glusterOnWindows
    else if cfg.autoscale_enabled then .error .glusterOnAutoscale
    else if !cfg.inter_node_communication_enabled then
      .error .glusterNoInternode
    else if 0 < cfg.low_priority then .error .glusterLowPriority
    else if cfg.dedicated ≤ 1 then .error .glusterDedicatedCount
    else if 1 < cfg.max_tasks_per_node then .error .glusterMaxTasks
    else
      match volume_type with
      | some vt =>
        if vt ≠ "replica" then .error .glusterVolumeType
        else .ok (num_gluster + 1)
      | none => .ok (num_gluster + 1)
  | .storageCluster =>
    if cfg.is_windows then .error .storageClusterOnWindows
    else .ok num_gluster
  | .azureBlob =>
    if cfg.is_windows then .error .blobOnWindows
    else if cfg.native then .error .blobOnNative
    else if cfg.offer = "ubuntuserver" then
      if cfg.sku < "16.04-lts" then .error .blobUnsupportedHostOs
      else .ok num_gluster
    else if !cfg.offer.startsWith "centos" then .error .blobUnsupportedHostOs
    else .ok num_gluster
  | .azureFile => .ok num_gluster

/-- Embeds the whole shared-data-volume walk of fleet.py lines 2022-2090:
run every entry through `sdv_entry_check` threading `num_gluster`, then
raise `cannot create more than one GlusterFS on compute volume per pool`
when more than one was counted. -/
def sdv_volume_checks (cfg : PoolCreateCfg) :
    List SdvSpec → Nat → Except SdvErr Unit
  | [], num_gluster =>
    if 1 < num_gluster then .error .multipleGluster else .ok ()
  | s :: rest, num_gluster =>
    match sdv_entry_check cfg s num_gluster with
    | .error e => .error e
    | .ok n => sdv_volume_checks cfg rest n

/-- Which `raise ValueError` of the peer-to-peer compatibility check
fired. -/
inductive DataReplicationErr where
  | p2pOnNative
  | p2pOnAutoscale
  deriving DecidableEq, Repr

/-- Embeds the peer-to-peer compatibility checks of fleet.py lines
1986-1996: peer-to-peer is incompatible with native container pools and
with autoscale (inter-node communication is only force-enabled, never an
error). -/
def data_replication_checks (p2p_enabled native autoscale_enabled : Bool) :
    Except DataReplicationErr Unit :=
  if p2p_enabled then
    if native then .error .p2pOnNative
    else if autoscale_enabled then .error .p2pOnAutoscale
    else .ok ()
  else .ok ()

/-! ## MountPlanner: glusterfs primary/backup selection in
    `_create_storage_cluster_mount_args` (fleet.py lines 557-611) -/

/-- One storage-cluster virtual machine as observed by the selection loop:
its NIC's private IP and its instance view's platform update and fault
domains. -/
structure GVm where
  ip : String
  ud : Nat
  fd : Nat
  deriving DecidableEq, Repr

/-- Embeds the first pass of fleet.py lines 567-593 as seen from the backup
variables: walking the machines in order, the backup becomes the first
machine whose update domain and fault domain both differ from the
primary's.  (The source condition also tests `primary_ip == backup_ip`,
which is vacuous there: `backup_ip` is still `None` while `primary_ip` is
a populated address.)  The primary is fixed to the first machine before
this scan decides anything, so it is a parameter. -/
def find_backup_first_pass (primary : GVm) : List GVm → Option GVm
  | [] => none
  | v :: rest =>
    if primary.ud = v.ud ∨ primary.fd = v.fd then
      find_backup_first_pass primary rest
    else some v

/-- Embeds the second pass of fleet.py lines 594-604: the backup becomes
the first machine whose update domain alone differs from the primary's. -/
def find_backup_second_pass (primary : GVm) : List GVm → Option GVm
  | [] => none
  | v :: rest =>
    if primary.ud ≠ v.ud then some v
    else find_backup_second_pass primary rest

/-- Embeds the primary/backup selection of
`_create_storage_cluster_mount_args` for a `glusterfs` file server
(fleet.py lines 557-609).  The machine list is the cluster's VMs in index
order (`range(sc.vm_count)`); the primary is the first machine (set in the
first loop iteration and never reassigned), the backup comes from the first
pass, falling back to the second; if either cannot be chosen the source
raises `RuntimeError` before building the mount options. -/
def gluster_select_primary_backup :
    List GVm → Except Unit (GVm × GVm)
  | [] => .error ()
  | v₀ :: rest =>
    match
      match find_backup_first_pass v₀ (v₀ :: rest) with
      | some b => some b
      | none => find_backup_second_pass v₀ (v₀ :: rest)
    with
    | some b => .ok (v₀, b)
    | none => .error ()

/-! ## DistributedBootstrapCoordinator: marker verification and cleanup in
    `_setup_glusterfs` (fleet.py lines 1480-1501) and
    `_update_container_images` (fleet.py lines 1750-1786) -/

/-- One compute node as the verification loop sees it: its identifier, and
whether `file.get_properties_from_compute_node` finds the success marker
file on it (`False` models the `BatchErrorException` branch). -/
structure CNode where
  id : String
  hasMarker : Bool
  deriving DecidableEq, Repr

/-- The observable events of the verification/cleanup tail of a
coordination run. -/
inductive CoordEv where
  /-- `file.get_properties_from_compute_node` was called for this node. -/
  | check (id : String)
  /-- `... success file absent on node {id}` was logged. -/
  | logMissing (id : String)
  /-- `stream stderr to console` (single-instance update path only). -/
  | streamStderr
  /-- `batch_client.job.delete(job_id)` was called. -/
  | deleteJob
  /-- `raise RuntimeError(... failed)` was raised to the caller. -/
  | raiseFailed
  deriving DecidableEq, Repr

/-- Embeds the marker-verification loop shared verbatim by
`_setup_glusterfs` (fleet.py lines 1484-1495) and the multi-instance branch
of `_update_container_images` (fleet.py lines 1760-1775), as the value of
`success` recast as the identifier of the node that flipped it: walking the
nodes in order, yield the id of the first node lacking the marker (`none`
when `success` stays `True`).  The source `break`s out of the loop right
after logging the first absent marker. -/
def verify_markers : List CNode → Option String
  | [] => none
  | n :: rest => if n.hasMarker then verify_markers rest else some n.id

/-- The same loop as `verify_markers`, reified as the event list it
produces: each node reached is checked; at the first node lacking the
marker the absence is logged and the loop exits. -/
def run_verification : List CNode → List CoordEv
  | [] => []
  | n :: rest =>
    CoordEv.check n.id ::
      (if n.hasMarker then run_verification rest
       else [CoordEv.logMissing n.id])

/-- Embeds the tail of `_setup_glusterfs` (fleet.py lines 1483-1498): after
the coordination task completes, verify the marker on every node (stopping
early on the first failure), delete the ephemeral job, and raise
`glusterfs setup failed` when verification failed. -/
def setup_glusterfs_epilogue (nodes : List CNode) : List CoordEv :=
  run_verification nodes ++ [CoordEv.deleteJob] ++
    (if (verify_markers nodes).isSome then [CoordEv.raiseFailed] else [])

/-- Embeds the tail of `_update_container_images` (fleet.py lines
1755-1786): for a multi-instance run (`pool.current_dedicated_nodes > 1`)
verify the marker on every listed node, else inspect the task's exit code
(`execution_info is None or exit_code != 0` streams stderr and marks
failure); then delete the ephemeral job, and raise
`update container images job failed` when the run failed. -/
def update_images_epilogue (multi_instance : Bool) (nodes : List CNode)
    (exit_code : Option Int) : List CoordEv :=
  let failed : Bool :=
    if multi_instance then (verify_markers nodes).isSome
    else exit_code ≠ some 0
  (if multi_instance then run_verification nodes
   else if exit_code ≠ some 0 then [CoordEv.streamStderr] else []) ++
    [CoordEv.deleteJob] ++
    (if failed then [CoordEv.raiseFailed] else [])

/-! ## `_update_container_images` preconditions (fleet.py lines 1565-1745) -/

/-- The observable events of the front of `_update_container_images`, in
source order. -/
inductive UpdateEv where
  /-- `cannot update container images for a pool with peer-to-peer image
      distribution` was raised. -/
  | raiseP2p
  /-- `cannot update container images for native container support pools`
      was raised. -/
  | raiseNative
  /-- the docker/singularity image lists were resolved from the
      arguments/global config. -/
  | resolveImages
  /-- `no images detected or specified to update` was logged and the
      function returned. -/
  | returnNoImages
  /-- `batch_client.pool.get(pool_id)` was called. -/
  | getPool
  /-- `not executing updateimages command as the current number of compute
      nodes is zero ...` was logged and the function returned. -/
  | returnZeroNodes
  /-- `cannot update images via SSH on windows` was raised. -/
  | raiseWindowsSsh
  /-- `invalid configuration: windows pool with singularity images` was
      raised. -/
  | raiseWindowsSingularity
  /-- `_update_container_images_over_ssh` was invoked (parallel SSH
      sessions to the nodes). -/
  | sshUpdate
  /-- `batch_client.job.add(job)` was called. -/
  | addJob
  /-- `batch_client.task.add(...)` was called. -/
  | addTask
  deriving DecidableEq, Repr

/-- Embeds the control flow of `_update_container_images` from entry up to
job submission (fleet.py lines 1578-1745), as the event trace it emits.
`p2p_enabled` is `none` when `settings.data_replication_settings` raises
`KeyError` (the source swallows it and skips the check).  The trace is cut
at the point the update work itself starts (SSH fan-out, or job+task
submission). -/
def update_container_images_events (p2p_enabled : Option Bool)
    (native : Bool) (no_images : Bool)
    (current_dedicated current_low_priority : Nat)
    (inter_node force_ssh is_windows has_singularity_images : Bool) :
    List UpdateEv :=
  if p2p_enabled = some true then [UpdateEv.raiseP2p]
  else if native then [UpdateEv.raiseNative]
  else
    UpdateEv.resolveImages ::
      (if no_images then [UpdateEv.returnNoImages]
       else
        UpdateEv.getPool ::
          (if current_dedicated = 0 ∧ current_low_priority = 0 then
            [UpdateEv.returnZeroNodes]
           else
            let fssh := force_ssh || 0 < current_low_priority ||
              (1 < current_dedicated && !inter_node)
            if is_windows && fssh then [UpdateEv.raiseWindowsSsh]
            else if is_windows && has_singularity_images then
              [UpdateEv.raiseWindowsSingularity]
            else if fssh then [UpdateEv.sshUpdate]
            else [UpdateEv.addJob, UpdateEv.addTask]))

/-! ## `action_pool_add` (fleet.py lines 2536-2575) -/

/-- The observable steps of `action_pool_add`, in source order. -/
inductive PoolAddEv where
  /-- `batch_client.pool.exists(settings.pool_id(config))` was called. -/
  | checkPoolExists
  /-- `attempting to create a pool that already exists: ...` was raised. -/
  | raisePoolExists
  /-- `_adjust_settings_for_pool_creation(config)` ran. -/
  | adjustSettings
  /-- `storage.create_storage_containers(...)` ran. -/
  | createStorageContainers
  /-- `storage.clear_storage_containers(...)` ran. -/
  | clearStorageContainers
  /-- `storage.populate_global_resource_blobs(...)` ran. -/
  | populateGlobalResourceBlobs
  /-- `_add_pool(...)` ran (uploads resources, submits the request). -/
  | addPool
  deriving DecidableEq, Repr

/-- Embeds `action_pool_add` (fleet.py lines 2559-2574) as its step trace:
the pre-existence check comes first, and a hit raises before any storage
work; otherwise settings are adjusted, containers created then cleared,
global resource blobs populated (non-native pools only), and the pool
added. -/
def action_pool_add_events (pool_exists native : Bool) : List PoolAddEv :=
  PoolAddEv.checkPoolExists ::
    (if pool_exists then [PoolAddEv.raisePoolExists]
     else
      PoolAddEv.adjustSettings :: PoolAddEv.createStorageContainers ::
        PoolAddEv.clearStorageContainers ::
          ((if native then [] else [PoolAddEv.populateGlobalResourceBlobs]) ++
            [PoolAddEv.addPool]))

/-- Embeds `action_pool_add` as a transformer of an abstract storage state
`σ`, with the storage-mutating collaborators passed as functions: when the
pool already exists the raise leaves the state untouched; otherwise the
storage operations run in source order (blob population only for non-native
pools). -/
def action_pool_add_storage {σ : Type} (create clear populate : σ → σ)
    (pool_exists native : Bool) (s : σ) : Option PoolAddEv × σ :=
  if pool_exists then (some PoolAddEv.raisePoolExists, s)
  else
    (none,
      (if native then id else populate) (clear (create s)))

/-- A concrete autoscale formula stand-in for `autoscale.get_formula`,
used only to instantiate theorems at a concrete input. -/
def sample_formula : PoolSettings → String :=
  fun _ => "$TargetDedicatedNodes=10"

/-- A concrete pool specification with autoscale enabled and explicit
target counts set (3 dedicated, 2 low-priority). -/
def autoscale_with_counts_spec : PoolSettings :=
  { id := "mypool"
    vm_count := { dedicated := 3, low_priority := 2 }
    resize_timeout := none
    max_tasks_per_node := 1
    inter_node_communication_enabled := false
    autoscale := { enabled := true, evaluation_interval := 15 } }

/-- The creation-time configuration facts for the same fleet: no windows,
no native containers, autoscale enabled, and no shared data volumes. -/
def autoscale_with_counts_cfg : PoolCreateCfg :=
  { is_windows := false
    native := false
    autoscale_enabled := true
    inter_node_communication_enabled := false
    dedicated := 3
    low_priority := 2
    max_tasks_per_node := 1
    publisher := "canonical"
    offer := "ubuntuserver"
    sku := "16.04-lts" }

/-! ## Theorems -/

/-- C4: for every subnet mask m in [0,30], the computed allowable address
count equals 2^(32-m) - 5, and the subnet plan fails (raises) whenever this
allowable count is strictly less than the pool's total requested node count
(dedicated plus low-priority). -/
theorem C4_allowable_addresses_and_rejection :
    ∀ m : Nat, m ≤ 30 →
      allowable_addresses m = 2 ^ (32 - m) - 5 ∧
      ∀ (dedicated low_priority : Nat) (user_confirms : Bool),
        allowable_addresses m < (dedicated : Int) + (low_priority : Int) →
        pool_virtual_network_subnet_address_space_check
            m dedicated low_priority user_confirms =
          Except.error SubnetCheckErr.insufficientSpace := by
  intro m _
  refine ⟨by simp [allowable_addresses, Nat.shiftLeft_eq], ?_⟩
  intro dedicated low_priority user_confirms h
  simp [pool_virtual_network_subnet_address_space_check, h]

/-- C4 witness: mask 24 keeps the bound (24 ≤ 30), its allowable count
2^8 - 5 = 251 is below a 300-dedicated-node request, and the check raises
the insufficient-space error. -/
theorem C4_allowable_addresses_and_rejection_witness :
    allowable_addresses 24 = 2 ^ (32 - 24) - 5 ∧
    pool_virtual_network_subnet_address_space_check 24 300 0 false =
      Except.error SubnetCheckErr.insufficientSpace :=
  ⟨(C4_allowable_addresses_and_rejection 24 (by decide)).1,
    (C4_allowable_addresses_and_rejection 24 (by decide)).2 300 0 false
      (by decide)⟩

/-- C2 counterexample: with mask 28 the allowable count is 11 and the pool
total is 9; the claim's threshold `total ≥ 0.9 · allowable` does not hold
(10·9 < 9·11), so the claim predicts the plan proceeds without
confirmation — yet the code requires confirmation (failing without it and
passing with it). -/
theorem C2_counterexample :
    ((9 : Int) + 0) * 10 < 9 * allowable_addresses 28 ∧
    pool_virtual_network_subnet_address_space_check 28 9 0 false =
      Except.error SubnetCheckErr.rejectedByUser ∧
    pool_virtual_network_subnet_address_space_check 28 9 0 true =
      Except.ok () :=
  ⟨by decide, rfl, rfl⟩

/-- C2 (amended): in the subnet address-space check, for every subnet whose
allowable address count is at least the pool's total node count (dedicated
plus low-priority), the plan requires explicit user confirmation — and
fails absent that confirmation — exactly when total node count ≥
int(0.9 · allowable address count), Python's truncation of the product
(equivalently `(9·allowable) tdiv 10`); otherwise it proceeds without
confirmation. -/
theorem C2_subnet_confirmation_threshold :
    ∀ (m dedicated low_priority : Nat),
      (dedicated : Int) + (low_priority : Int) ≤ allowable_addresses m →
      ((pool_virtual_network_subnet_address_space_check
            m dedicated low_priority false =
          Except.error SubnetCheckErr.rejectedByUser ∧
        pool_virtual_network_subnet_address_space_check
            m dedicated low_priority true = Except.ok ()) ↔
        int_of_times_09 (allowable_addresses m) ≤
          (dedicated : Int) + (low_priority : Int)) := by
  intro m dedicated low_priority h
  by_cases ht :
      int_of_times_09 (allowable_addresses m) ≤
        (dedicated : Int) + (low_priority : Int) <;>
    simp [pool_virtual_network_subnet_address_space_check, not_lt.mpr h, ht]

/-- C2 witness: mask 29 allows 3 addresses; a 3-node pool is at the
tolerance threshold (int(3·0.9) = 2 ≤ 3), so the check fails without
confirmation and passes with it. -/
theorem C2_subnet_confirmation_threshold_witness :
    pool_virtual_network_subnet_address_space_check 29 3 0 false =
      Except.error SubnetCheckErr.rejectedByUser ∧
    pool_virtual_network_subnet_address_space_check 29 3 0 true =
      Except.ok () :=
  (C2_subnet_confirmation_threshold 29 3 0 (by decide)).mpr (by decide)

/-- C7: in the constructed pool-creation request, whenever autoscale is
enabled the target dedicated node count, target low-priority node count,
and resize timeout are all omitted (None) and the request carries the
autoscale formula and evaluation interval with auto-scale enabled;
whenever autoscale is disabled the request carries the explicit target
counts and resize timeout and no autoscale formula or interval. -/
theorem C7_pool_request_autoscale_exclusivity :
    ∀ (get_formula : PoolSettings → String) (ps : PoolSettings),
      (construct_pool_parameter get_formula ps).target_dedicated_nodes =
        (if is_pool_autoscale_enabled ps then none
         else some ps.vm_count.dedicated) ∧
      (construct_pool_parameter get_formula ps).target_low_priority_nodes =
        (if is_pool_autoscale_enabled ps then none
         else some ps.vm_count.low_priority) ∧
      (construct_pool_parameter get_formula ps).resize_timeout =
        (if is_pool_autoscale_enabled ps then none else ps.resize_timeout) ∧
      (construct_pool_parameter get_formula ps).enable_auto_scale =
        is_pool_autoscale_enabled ps ∧
      (construct_pool_parameter get_formula ps).auto_scale_formula =
        (if is_pool_autoscale_enabled ps then some (get_formula ps)
         else none) ∧
      (construct_pool_parameter get_formula ps).auto_scale_evaluation_interval =
        (if is_pool_autoscale_enabled ps then
          some ps.autoscale.evaluation_interval
         else none) := by
  intro get_formula ps
  by_cases h : is_pool_autoscale_enabled ps <;>
    simp [construct_pool_parameter, pool_autoscale_settings, h]


/-- C3 counterexample: a fleet specification with autoscale enabled and
explicit dedicated/low-priority counts (3 and 2) set passes every
validation the code performs — the shared-data-volume walk and the
peer-to-peer compatibility checks accept it, and the pool request is
constructed without any configuration error, the counts simply dropped
(both targets `none`).  The code has no check that rejects autoscale
together with explicit target counts. -/
theorem C3_counterexample :
    is_pool_autoscale_enabled autoscale_with_counts_spec = true ∧
    autoscale_with_counts_spec.vm_count.dedicated = 3 ∧
    autoscale_with_counts_spec.vm_count.low_priority = 2 ∧
    sdv_volume_checks autoscale_with_counts_cfg [] 0 = Except.ok () ∧
    data_replication_checks false false true = Except.ok () ∧
    (construct_pool_parameter sample_formula
        autoscale_with_counts_spec).enable_auto_scale = true ∧
    (construct_pool_parameter sample_formula
        autoscale_with_counts_spec).target_dedicated_nodes = none ∧
    (construct_pool_parameter sample_formula
        autoscale_with_counts_spec).target_low_priority_nodes = none :=
  ⟨rfl, rfl, rfl, rfl, rfl, rfl, rfl, rfl⟩

/-- C3 (amended): for every fleet specification with autoscale enabled and
explicit dedicated/low-priority target node counts set, validation does
not fail; the explicit counts and the resize timeout are dropped from the
constructed pool request (a configured resize timeout is only warned
about), auto-scale being enabled in their place. -/
theorem C3_autoscale_counts_ignored :
    ∀ (get_formula : PoolSettings → String) (ps : PoolSettings),
      is_pool_autoscale_enabled ps = true →
      (construct_pool_parameter get_formula ps).target_dedicated_nodes =
        none ∧
      (construct_pool_parameter get_formula ps).target_low_priority_nodes =
        none ∧
      (construct_pool_parameter get_formula ps).resize_timeout = none ∧
      (construct_pool_parameter get_formula ps).enable_auto_scale = true ∧
      (pool_autoscale_settings get_formula ps).warns_resize_timeout =
        ps.resize_timeout.isSome := by
  intro get_formula ps h
  simp [construct_pool_parameter, pool_autoscale_settings, h]

/-- C3 witness: the amended claim at the concrete autoscale-enabled
specification with counts (3, 2). -/
theorem C3_autoscale_counts_ignored_witness :
    (construct_pool_parameter sample_formula
        autoscale_with_counts_spec).target_dedicated_nodes = none ∧
    (construct_pool_parameter sample_formula
        autoscale_with_counts_spec).target_low_priority_nodes = none ∧
    (construct_pool_parameter sample_formula
        autoscale_with_counts_spec).resize_timeout = none ∧
    (construct_pool_parameter sample_formula
        autoscale_with_counts_spec).enable_auto_scale = true ∧
    (pool_autoscale_settings sample_formula
        autoscale_with_counts_spec).warns_resize_timeout =
      autoscale_with_counts_spec.resize_timeout.isSome :=
  C3_autoscale_counts_ignored sample_formula autoscale_with_counts_spec rfl

/-- When the shared-data-volume walk succeeds, every glusterfs-on-compute
entry it visited passed all its per-entry checks, and the threaded counter
(started at `n`) plus the number of such entries stayed at most one. -/
theorem sdv_volume_checks_ok_inv :
    ∀ (cfg : PoolCreateCfg) (sdvs : List SdvSpec) (n : Nat),
      sdv_volume_checks cfg sdvs n = Except.ok () →
      (∀ vt : Option String, SdvSpec.glusterOnCompute vt ∈ sdvs →
        cfg.is_windows = false ∧ cfg.autoscale_enabled = false ∧
        cfg.inter_node_communication_enabled = true ∧
        cfg.low_priority = 0 ∧ 1 < cfg.dedicated ∧
        cfg.max_tasks_per_node ≤ 1) ∧
      n + sdvs.countP SdvSpec.isGlusterOnCompute ≤ 1 := by
  intro cfg sdvs
  induction sdvs with
  | nil =>
    intro n h
    refine ⟨by simp, ?_⟩
    simp only [sdv_volume_checks] at h
    split at h
    · exact absurd h (by simp)
    · simpa using by omega
  | cons s rest ih =>
    intro n h
    simp only [sdv_volume_checks] at h
    cases hs : sdv_entry_check cfg s n with
    | error e => rw [hs] at h; exact absurd h (by simp)
    | ok n' =>
      rw [hs] at h
      obtain ⟨hg, hc⟩ := ih n' h
      cases s with
      | glusterOnCompute vt =>
        simp only [sdv_entry_check] at hs
        by_cases hw : cfg.is_windows = true
        · rw [if_pos hw] at hs; exact absurd hs (by simp)
        rw [if_neg hw] at hs
        by_cases ha : cfg.autoscale_enabled = true
        · rw [if_pos ha] at hs; exact absurd hs (by simp)
        rw [if_neg ha] at hs
        by_cases hi : (!cfg.inter_node_communication_enabled) = true
        · rw [if_pos hi] at hs; exact absurd hs (by simp)
        rw [if_neg hi] at hs
        by_cases hl : 0 < cfg.low_priority
        · rw [if_pos hl] at hs; exact absurd hs (by simp)
        rw [if_neg hl] at hs
        by_cases hd : cfg.dedicated ≤ 1
        · rw [if_pos hd] at hs; exact absurd hs (by simp)
        rw [if_neg hd] at hs
        by_cases hm : 1 < cfg.max_tasks_per_node
        · rw [if_pos hm] at hs; exact absurd hs (by simp)
        rw [if_neg hm] at hs
        have hflags : cfg.is_windows = false ∧ cfg.autoscale_enabled = false ∧
            cfg.inter_node_communication_enabled = true ∧
            cfg.low_priority = 0 ∧ 1 < cfg.dedicated ∧
            cfg.max_tasks_per_node ≤ 1 := by
          refine ⟨by simpa using hw, by simpa using ha, ?_, by omega, by omega,
            by omega⟩
          simpa using hi
        have hn' : n' = n + 1 := by
          cases vt with
          | some v =>
            simp only at hs
            split at hs
            · exact absurd hs (by simp)
            · simpa using hs.symm
          | none => simpa using hs.symm
        refine ⟨?_, ?_⟩
        · intro vt' hmem
          rcases List.mem_cons.mp hmem with heq | hmem'
          · exact hflags
          · exact (hg vt' hmem')
        · rw [hn'] at hc
          simp only [List.countP_cons, SdvSpec.isGlusterOnCompute] at *
          simp at *
          omega
      | storageCluster =>
        simp only [sdv_entry_check] at hs
        have hn' : n' = n := by
          split at hs
          · exact absurd hs (by simp)
          · simpa using hs.symm
        refine ⟨?_, ?_⟩
        · intro vt' hmem
          rcases List.mem_cons.mp hmem with heq | hmem'
          · exact absurd heq (by simp)
          · exact hg vt' hmem'
        · rw [hn'] at hc
          simp only [List.countP_cons, SdvSpec.isGlusterOnCompute] at *
          simp at *
          omega
      | azureBlob =>
        simp only [sdv_entry_check] at hs
        have hn' : n' = n := by
          split at hs
          · exact absurd hs (by simp)
          split at hs
          · exact absurd hs (by simp)
          split at hs
          · split at hs
            · exact absurd hs (by simp)
            · simpa using hs.symm
          split at hs
          · exact absurd hs (by simp)
          · simpa using hs.symm
        refine ⟨?_, ?_⟩
        · intro vt' hmem
          rcases List.mem_cons.mp hmem with heq | hmem'
          · exact absurd heq (by simp)
          · exact hg vt' hmem'
        · rw [hn'] at hc
          simp only [List.countP_cons, SdvSpec.isGlusterOnCompute] at *
          simp at *
          omega
      | azureFile =>
        simp only [sdv_entry_check] at hs
        have hn' : n' = n := by simpa using hs.symm
        refine ⟨?_, ?_⟩
        · intro vt' hmem
          rcases List.mem_cons.mp hmem with heq | hmem'
          · exact absurd heq (by simp)
          · exact hg vt' hmem'
        · rw [hn'] at hc
          simp only [List.countP_cons, SdvSpec.isGlusterOnCompute] at *
          simp at *
          omega

/-- C6: for every fleet specification declaring an on-compute replicated
(glusterfs-on-compute) volume, pool-creation validation fails whenever any
of the following holds: the target is Windows, autoscale is enabled,
inter-node communication is disabled, the low-priority node count is
greater than 0, the dedicated node count is at most 1, max-tasks-per-node
exceeds 1, or more than one such volume is declared. -/
theorem C6_gluster_on_compute_validation :
    ∀ (cfg : PoolCreateCfg) (sdvs : List SdvSpec) (vt : Option String),
      SdvSpec.glusterOnCompute vt ∈ sdvs →
      (cfg.is_windows = true ∨ cfg.autoscale_enabled = true ∨
        cfg.inter_node_communication_enabled = false ∨
        0 < cfg.low_priority ∨ cfg.dedicated ≤ 1 ∨
        1 < cfg.max_tasks_per_node ∨
        1 < sdvs.countP SdvSpec.isGlusterOnCompute) →
      ∃ e, sdv_volume_checks cfg sdvs 0 = Except.error e := by
  intro cfg sdvs vt hmem hbad
  cases h : sdv_volume_checks cfg sdvs 0 with
  | error e => exact ⟨e, rfl⟩
  | ok u =>
    cases u
    obtain ⟨hg, hc⟩ := sdv_volume_checks_ok_inv cfg sdvs 0 h
    obtain ⟨h1, h2, h3, h4, h5, h6⟩ := hg vt hmem
    rcases hbad with hb | hb | hb | hb | hb | hb | hb
    · rw [h1] at hb; exact absurd hb (by simp)
    · rw [h2] at hb; exact absurd hb (by simp)
    · rw [h3] at hb; exact absurd hb (by simp)
    · omega
    · omega
    · omega
    · omega

/-- C6 witness: a one-volume glusterfs-on-compute fleet with one
low-priority node fails validation. -/
theorem C6_gluster_on_compute_validation_witness :
    SdvSpec.glusterOnCompute none ∈ [SdvSpec.glusterOnCompute none] ∧
    ∃ e,
      sdv_volume_checks
          { is_windows := false, native := false, autoscale_enabled := false
            inter_node_communication_enabled := true, dedicated := 2
            low_priority := 1, max_tasks_per_node := 1
            publisher := "canonical", offer := "ubuntuserver"
            sku := "16.04-lts" }
          [SdvSpec.glusterOnCompute none] 0 = Except.error e :=
  ⟨by decide,
    C6_gluster_on_compute_validation _ _ none (by decide)
      (Or.inr (Or.inr (Or.inr (Or.inl (by decide)))))⟩

/-- The first backup pass is the first machine whose update domain and
fault domain both differ from the primary's. -/
theorem find_backup_first_pass_eq_find? :
    ∀ (p : GVm) (l : List GVm),
      find_backup_first_pass p l =
        l.find? (fun v => !(p.ud == v.ud || p.fd == v.fd)) := by
  intro p l
  induction l with
  | nil => rfl
  | cons v rest ih =>
    simp only [find_backup_first_pass, List.find?_cons]
    by_cases h : p.ud = v.ud ∨ p.fd = v.fd
    · have hb : (!(p.ud == v.ud || p.fd == v.fd)) = false := by
        rcases h with h | h <;> simp [h]
      rw [if_pos h, hb, ih]
    · push_neg at h
      have hb : (!(p.ud == v.ud || p.fd == v.fd)) = true := by
        simp [h.1, h.2]
      rw [if_neg (not_or.mpr ⟨h.1, h.2⟩), hb]

/-- The second backup pass is the first machine whose update domain alone
differs from the primary's. -/
theorem find_backup_second_pass_eq_find? :
    ∀ (p : GVm) (l : List GVm),
      find_backup_second_pass p l = l.find? (fun v => p.ud != v.ud) := by
  intro p l
  induction l with
  | nil => rfl
  | cons v rest ih =>
    simp only [find_backup_second_pass, List.find?_cons]
    by_cases h : p.ud = v.ud
    · have hb : (p.ud != v.ud) = false := by simp [h]
      rw [if_neg (not_not_intro h), hb, ih]
    · have hb : (p.ud != v.ud) = true := by simp [h]
      rw [if_pos h, hb]

/-- C5: for a replicated (GlusterFS) storage-cluster mount, given the
ordered list of cluster nodes with their IPs and fault/update domains, the
primary is the first node, and the backup is a node whose fault domain and
update domain both differ from the primary's when such a node exists;
otherwise the backup is the first node whose update domain differs from
the primary's; if no backup (or primary) can be chosen, mount-argument
construction fails. -/
theorem C5_gluster_primary_backup_selection :
    ∀ (vms : List GVm),
      (vms = [] → gluster_select_primary_backup vms = Except.error ()) ∧
      ∀ (v₀ : GVm) (rest : List GVm), vms = v₀ :: rest →
        ((∃ v ∈ vms, v.ud ≠ v₀.ud ∧ v.fd ≠ v₀.fd) →
          ∃ b, gluster_select_primary_backup vms = Except.ok (v₀, b) ∧
            b ∈ vms ∧ b.ud ≠ v₀.ud ∧ b.fd ≠ v₀.fd) ∧
        ((∀ v ∈ vms, v.ud = v₀.ud ∨ v.fd = v₀.fd) →
          ∀ b, vms.find? (fun v => v₀.ud != v.ud) = some b →
            gluster_select_primary_backup vms = Except.ok (v₀, b)) ∧
        ((∀ v ∈ vms, v.ud = v₀.ud) →
          gluster_select_primary_backup vms = Except.error ()) := by
  intro vms
  constructor
  · intro h
    subst h
    rfl
  intro v₀ rest hvms
  subst hvms
  refine ⟨?_, ?_, ?_⟩
  · intro hex
    have hfp : ∃ b, find_backup_first_pass v₀ (v₀ :: rest) = some b := by
      rw [find_backup_first_pass_eq_find?]
      rw [← Option.isSome_iff_exists, List.find?_isSome]
      obtain ⟨v, hv, h1, h2⟩ := hex
      exact ⟨v, hv, by simp [Ne.symm h1, Ne.symm h2]⟩
    obtain ⟨b, hb⟩ := hfp
    have hbfind := find_backup_first_pass_eq_find? v₀ (v₀ :: rest) ▸ hb
    have hbmem := List.mem_of_find?_eq_some hbfind
    have hbp := List.find?_some hbfind
    refine ⟨b, ?_, hbmem, ?_, ?_⟩
    · simp only [gluster_select_primary_backup, hb]
    · intro hcon
      simp [hcon] at hbp
    · intro hcon
      simp [hcon] at hbp
  · intro hall b hfind
    have hfp : find_backup_first_pass v₀ (v₀ :: rest) = none := by
      rw [find_backup_first_pass_eq_find?, List.find?_eq_none]
      intro v hv
      rcases hall v hv with h | h <;> simp [h]
    have hsp : find_backup_second_pass v₀ (v₀ :: rest) = some b := by
      rw [find_backup_second_pass_eq_find?]
      exact hfind
    simp only [gluster_select_primary_backup, hfp, hsp]
  · intro hall
    have hfp : find_backup_first_pass v₀ (v₀ :: rest) = none := by
      rw [find_backup_first_pass_eq_find?, List.find?_eq_none]
      intro v hv
      simp [hall v hv]
    have hsp : find_backup_second_pass v₀ (v₀ :: rest) = none := by
      rw [find_backup_second_pass_eq_find?, List.find?_eq_none]
      intro v hv
      simp [hall v hv]
    simp only [gluster_select_primary_backup, hfp, hsp]

/-- C5 witness: on the spec's example fault/update-domain placements
[(0,0), (0,1), (1,0)] (as (fd, ud) pairs) no node differs from the primary
in both domains, and the fallback selects the first node with a differing
update domain — the second node. -/
theorem C5_gluster_primary_backup_selection_witness :
    gluster_select_primary_backup
        [⟨"10.0.0.4", 0, 0⟩, ⟨"10.0.0.5", 1, 0⟩, ⟨"10.0.0.6", 0, 1⟩] =
      Except.ok (⟨"10.0.0.4", 0, 0⟩, ⟨"10.0.0.5", 1, 0⟩) :=
  ((C5_gluster_primary_backup_selection _).2 ⟨"10.0.0.4", 0, 0⟩
      [⟨"10.0.0.5", 1, 0⟩, ⟨"10.0.0.6", 0, 1⟩] rfl).2.1
    (by decide) ⟨"10.0.0.5", 1, 0⟩ (by decide)

/-- Verification reports nothing exactly when every node has the marker. -/
theorem verify_markers_eq_none_iff :
    ∀ nodes : List CNode,
      verify_markers nodes = none ↔ ∀ n ∈ nodes, n.hasMarker = true := by
  intro nodes
  induction nodes with
  | nil => simp [verify_markers]
  | cons n rest ih =>
    by_cases h : n.hasMarker <;> simp [verify_markers, h, ih]

/-- Verification reports something exactly when some node lacks the
marker. -/
theorem verify_markers_isSome_iff :
    ∀ nodes : List CNode,
      (verify_markers nodes).isSome = true ↔
        ∃ n ∈ nodes, n.hasMarker = false := by
  intro nodes
  rw [Option.isSome_iff_ne_none, ne_eq, verify_markers_eq_none_iff]
  simp

/-- The verification loop never emits the job-deletion or raise events. -/
theorem run_verification_events :
    ∀ (nodes : List CNode) (e : CoordEv), e ∈ run_verification nodes →
      (∃ i, e = CoordEv.check i) ∨ ∃ i, e = CoordEv.logMissing i := by
  intro nodes
  induction nodes with
  | nil => simp [run_verification]
  | cons n rest ih =>
    intro e he
    simp only [run_verification] at he
    rcases List.mem_cons.mp he with h | h
    · exact Or.inl ⟨n.id, h⟩
    · by_cases hm : n.hasMarker
      · rw [if_pos hm] at h
        exact ih e h
      · rw [if_neg hm] at h
        simp at h
        exact Or.inr ⟨n.id, h⟩

/-- C1 counterexample: with two target nodes of which the first lacks the
marker and the second has it, the run resolves to Failed, yet the second
node's marker is never checked — the loop aborts at the first missing
marker, so not every node is checked before the run is declared Failed. -/
theorem C1_counterexample :
    (verify_markers [⟨"tvm-a", false⟩, ⟨"tvm-b", true⟩]).isSome = true ∧
    CoordEv.check "tvm-b" ∉
      run_verification [⟨"tvm-a", false⟩, ⟨"tvm-b", true⟩] := by
  decide

/-- C1 (amended): during coordination verification (the loop shared by
glusterfs setup and multi-instance image update), the per-node marker file
is checked on each target node in order only up to the first node lacking
it — a missing marker aborts the check early, nodes after it are not
checked — and the run resolves to Failed exactly when at least one node
lacks the marker (the first lacking node's identifier being reported and
logged) and to Verified when all nodes have it. -/
theorem C1_marker_verification :
    ∀ nodes : List CNode,
      (verify_markers nodes = none ↔ ∀ n ∈ nodes, n.hasMarker = true) ∧
      ((verify_markers nodes).isSome = true ↔
        ∃ n ∈ nodes, n.hasMarker = false) ∧
      ((∀ n ∈ nodes, n.hasMarker = true) →
        run_verification nodes = nodes.map (fun n => CoordEv.check n.id)) ∧
      (∀ (pre : List CNode) (bad : CNode) (post : List CNode),
        nodes = pre ++ bad :: post →
        (∀ m ∈ pre, m.hasMarker = true) → bad.hasMarker = false →
        verify_markers nodes = some bad.id ∧
        run_verification nodes =
          pre.map (fun m => CoordEv.check m.id) ++
            [CoordEv.check bad.id, CoordEv.logMissing bad.id]) := by
  intro nodes
  refine ⟨verify_markers_eq_none_iff nodes, verify_markers_isSome_iff nodes,
    ?_, ?_⟩
  · intro hall
    induction nodes with
    | nil => rfl
    | cons n rest ih =>
      have hn : n.hasMarker = true := hall n (List.mem_cons_self n rest)
      simp only [run_verification, hn, if_pos, List.map_cons]
      rw [ih (fun m hm => hall m (List.mem_cons_of_mem n hm))]
  · intro pre bad post hsplit hpre hbad
    subst hsplit
    induction pre with
    | nil =>
      refine ⟨?_, ?_⟩
      · simp [verify_markers, hbad]
      · simp [run_verification, hbad]
    | cons m mrest ih =>
      have hm : m.hasMarker = true := hpre m (List.mem_cons_self m mrest)
      have hrest : ∀ x ∈ mrest, x.hasMarker = true :=
        fun x hx => hpre x (List.mem_cons_of_mem m hx)
      obtain ⟨ih1, ih2⟩ := ih hrest
      refine ⟨?_, ?_⟩
      · simpa [verify_markers, hm] using ih1
      · rw [List.cons_append]
        have hstep : run_verification (m :: (mrest ++ bad :: post)) =
            CoordEv.check m.id :: run_verification (mrest ++ bad :: post) := by
          simp [run_verification, hm]
        rw [hstep, ih2, List.map_cons, List.cons_append]

/-- C1 witness: for nodes a (marker present), b (marker absent),
c (marker present), the run fails reporting b, after checking only a and
b. -/
theorem C1_marker_verification_witness :
    verify_markers [⟨"a", true⟩, ⟨"b", false⟩, ⟨"c", true⟩] = some "b" ∧
    run_verification [⟨"a", true⟩, ⟨"b", false⟩, ⟨"c", true⟩] =
      [CoordEv.check "a", CoordEv.check "b", CoordEv.logMissing "b"] := by
  have h := (C1_marker_verification
      [⟨"a", true⟩, ⟨"b", false⟩, ⟨"c", true⟩]).2.2.2
    [⟨"a", true⟩] ⟨"b", false⟩ [⟨"c", true⟩] rfl (by decide) rfl
  simpa using h

/-- C8: for every coordination run that reaches the verification stage
(glusterfs setup or multi-instance image update), the ephemeral
coordination job is deleted regardless of whether verification succeeded
or failed, and on failure the error is raised to the caller only after the
job deletion. -/
theorem C8_job_deleted_before_raise :
    ∀ (nodes : List CNode) (multi_instance : Bool) (exit_code : Option Int),
      (∃ pre post,
        setup_glusterfs_epilogue nodes =
          pre ++ CoordEv.deleteJob :: post ∧
        CoordEv.raiseFailed ∉ pre ∧
        (CoordEv.raiseFailed ∈ post ↔ ∃ n ∈ nodes, n.hasMarker = false)) ∧
      (∃ pre post,
        update_images_epilogue multi_instance nodes exit_code =
          pre ++ CoordEv.deleteJob :: post ∧
        CoordEv.raiseFailed ∉ pre ∧
        (CoordEv.raiseFailed ∈ post ↔
          (if multi_instance then ∃ n ∈ nodes, n.hasMarker = false
           else exit_code ≠ some 0))) := by
  intro nodes multi_instance exit_code
  constructor
  · refine ⟨run_verification nodes,
      (if (verify_markers nodes).isSome then [CoordEv.raiseFailed] else []),
      ?_, ?_, ?_⟩
    · simp [setup_glusterfs_epilogue, List.append_assoc]
    · intro hmem
      rcases run_verification_events nodes CoordEv.raiseFailed hmem with
        ⟨i, hi⟩ | ⟨i, hi⟩ <;> exact CoordEv.noConfusion hi
    · rw [← verify_markers_isSome_iff]
      by_cases h : (verify_markers nodes).isSome <;> simp [h]
  · refine ⟨(if multi_instance then run_verification nodes
      else if exit_code ≠ some 0 then [CoordEv.streamStderr] else []),
      (if (if multi_instance then (verify_markers nodes).isSome
           else exit_code ≠ some 0) then [CoordEv.raiseFailed] else []),
      ?_, ?_, ?_⟩
    · simp only [update_images_epilogue]
      by_cases hm : multi_instance <;>
        by_cases he : exit_code = some 0 <;> simp [hm, he]
    · by_cases hm : multi_instance
      · rw [if_pos hm]
        intro hmem
        rcases run_verification_events nodes CoordEv.raiseFailed hmem with
          ⟨i, hi⟩ | ⟨i, hi⟩ <;> exact CoordEv.noConfusion hi
      · rw [if_neg hm]
        by_cases he : exit_code ≠ some 0 <;> simp [he]
    · by_cases hm : multi_instance
      · rw [if_pos hm, if_pos hm, ← verify_markers_isSome_iff]
        by_cases h : (verify_markers nodes).isSome <;> simp [h]
      · rw [if_neg hm, if_neg hm]
        by_cases he : exit_code ≠ some 0 <;> simp [he]

/-- C8 witness: a failed two-node glusterfs verification (first node lacks
the marker) still deletes the job, and raises only afterwards; the
single-instance update path with exit code 1 behaves the same. -/
theorem C8_job_deleted_before_raise_witness :
    (∃ pre post,
      setup_glusterfs_epilogue [⟨"n0", false⟩, ⟨"n1", true⟩] =
        pre ++ CoordEv.deleteJob :: post ∧
      CoordEv.raiseFailed ∉ pre ∧
      (CoordEv.raiseFailed ∈ post ↔
        ∃ n ∈ [CNode.mk "n0" false, CNode.mk "n1" true],
          n.hasMarker = false)) ∧
    (∃ pre post,
      update_images_epilogue false [] (some 1) =
        pre ++ CoordEv.deleteJob :: post ∧
      CoordEv.raiseFailed ∉ pre ∧
      (CoordEv.raiseFailed ∈ post ↔
        (if false then ∃ n ∈ ([] : List CNode), n.hasMarker = false
         else (some 1 : Option Int) ≠ some 0))) :=
  ⟨(C8_job_deleted_before_raise [⟨"n0", false⟩, ⟨"n1", true⟩] false
      (some 1)).1,
    (C8_job_deleted_before_raise [] false (some 1)).2⟩

/-- C9: for every configuration whose pool id names an already-existing
pool, the pool-add action raises an error before creating or clearing any
storage containers or uploading any resources, leaving all storage state
unchanged — the pre-existence check is the first step of the action,
whatever the configuration. -/
theorem C9_pool_add_checks_existence_first :
    ∀ (native : Bool) (σ : Type) (create clear populate : σ → σ) (s : σ),
      action_pool_add_events true native =
        [PoolAddEv.checkPoolExists, PoolAddEv.raisePoolExists] ∧
      (∀ pool_exists : Bool,
        (action_pool_add_events pool_exists native).head? =
          some PoolAddEv.checkPoolExists) ∧
      PoolAddEv.createStorageContainers ∉ action_pool_add_events true native ∧
      PoolAddEv.clearStorageContainers ∉ action_pool_add_events true native ∧
      PoolAddEv.populateGlobalResourceBlobs ∉
        action_pool_add_events true native ∧
      PoolAddEv.addPool ∉ action_pool_add_events true native ∧
      action_pool_add_storage create clear populate true native s =
        (some PoolAddEv.raisePoolExists, s) := by
  intro native σ create clear populate s
  refine ⟨rfl, ?_, ?_, ?_, ?_, ?_, rfl⟩
  · intro pool_exists
    cases pool_exists <;> rfl
  all_goals simp [action_pool_add_events]

/-- C9 witness: the action on an already-existing pool for a non-native
configuration over a storage state carrying a change counter: the state
comes back untouched. -/
theorem C9_pool_add_checks_existence_first_witness :
    action_pool_add_events true false =
      [PoolAddEv.checkPoolExists, PoolAddEv.raisePoolExists] ∧
    action_pool_add_storage (Nat.succ) (Nat.succ) (Nat.succ) true false 0 =
      (some PoolAddEv.raisePoolExists, 0) :=
  ⟨(C9_pool_add_checks_existence_first false Nat Nat.succ Nat.succ Nat.succ
      0).1,
    (C9_pool_add_checks_existence_first false Nat Nat.succ Nat.succ Nat.succ
      0).2.2.2.2.2.2⟩

/-- C10: for every configuration with peer-to-peer image distribution
enabled, and for every native-container pool, the container-image update
operation raises an error before submitting any job or contacting any node
(no job add, no task add, no SSH fan-out, not even the pool retrieval);
these preconditions are checked before any other work in the update
path — the peer-to-peer check first, then the native check. -/
theorem C10_update_images_preconditions :
    ∀ (native no_images : Bool) (current_dedicated current_low_priority : Nat)
      (inter_node force_ssh is_windows has_singularity_images : Bool),
      update_container_images_events (some true) native no_images
          current_dedicated current_low_priority inter_node force_ssh
          is_windows has_singularity_images = [UpdateEv.raiseP2p] ∧
      update_container_images_events none true no_images
          current_dedicated current_low_priority inter_node force_ssh
          is_windows has_singularity_images = [UpdateEv.raiseNative] ∧
      update_container_images_events (some false) true no_images
          current_dedicated current_low_priority inter_node force_ssh
          is_windows has_singularity_images = [UpdateEv.raiseNative] ∧
      (∀ trace ∈ [
          update_container_images_events (some true) native no_images
            current_dedicated current_low_priority inter_node force_ssh
            is_windows has_singularity_images,
          update_container_images_events none true no_images
            current_dedicated current_low_priority inter_node force_ssh
            is_windows has_singularity_images,
          update_container_images_events (some false) true no_images
            current_dedicated current_low_priority inter_node force_ssh
            is_windows has_singularity_images],
        UpdateEv.addJob ∉ trace ∧ UpdateEv.addTask ∉ trace ∧
        UpdateEv.sshUpdate ∉ trace ∧ UpdateEv.getPool ∉ trace) := by
  intro native no_images current_dedicated current_low_priority inter_node
    force_ssh is_windows has_singularity_images
  refine ⟨?_, ?_, ?_, ?_⟩
  · simp [update_container_images_events]
  · simp [update_container_images_events]
  · simp [update_container_images_events]
  · intro trace htrace
    simp only [List.mem_cons, List.mem_singleton, List.not_mem_nil] at htrace
    rcases htrace with h | h | h | h
    all_goals first
      | (subst h
         refine ⟨?_, ?_, ?_, ?_⟩ <;> simp [update_container_images_events])
      | exact absurd h (by simp)

/-- C10 witness: concrete traces for a two-dedicated-node pool. -/
theorem C10_update_images_preconditions_witness :
    update_container_images_events (some true) false false 2 0 true false
        false false = [UpdateEv.raiseP2p] ∧
    update_container_images_events none true false 2 0 true false
        false false = [UpdateEv.raiseNative] :=
  ⟨(C10_update_images_preconditions false false 2 0 true false false
      false).1,
    (C10_update_images_preconditions false false 2 0 true false false
      false).2.1⟩
